import Mathlib

/-!
Shallow embedding of the message-selection and filtering engine of the
`mailclient` repository (files `src/commands/read.py` and `src/mail_utils.py`),
together with theorems settling the frozen claims about it.

Conventions of the embedding:
* Python `random.choice(xs)` is modelled by `random_choice xs k`, where `k` is
  an arbitrary draw index: the result is `xs[k % len(xs)]`, and `none` models
  the `IndexError` that `random.choice` raises on an empty list.
* `re.search(pat, text, re.IGNORECASE)` is modelled by an abstract matcher
  `search : String → String → Bool` passed as a parameter (its first argument
  is the pattern, the second the text); the combination logic of
  `filter_by_regex` is independent of the matcher.
* Timestamps (naive-UTC datetimes after the normalisation performed by the
  code) are modelled as `Int`; `email.utils.parsedate_to_datetime` is an
  abstract partial parser `String → Option Int` (`none` models a raised
  exception).
* Fallible operations return `Option`: `none` models a raised exception at the
  point where the Python code would catch (or propagate) it.
-/

/-- Model of Python `random.choice`: pick index `k % len`; `none` models the
`IndexError` raised on an empty sequence. -/
def random_choice {α : Type} (l : List α) (k : Nat) : Option α :=
  l.get? (k % l.length)

/-- Python truthiness of an `Optional[str]` value: `None` and `""` are falsy. -/
def truthyOpt : Option String → Bool
  | none => false
  | some s => !(s == "")

/-- The `body` value flowing through `filter_by_regex`: either a plain string
or the list of `(content_type, text)` pairs produced by
`extract_body_from_msg` (`body: Union[str, List[Tuple[str, str]]]`). -/
inductive BodyVal : Type
  | str : String → BodyVal
  | parts : List (String × String) → BodyVal
deriving DecidableEq

/-- The body text used for regex matching: a list body is joined as
`" ".join([text.strip() for _, text in body])` (read.py line 120). -/
def body_text_of : BodyVal → String
  | .str s => s
  | .parts l => String.intercalate " " (l.map (fun p => p.2.trim))

/-- Embedding of `filter_by_regex` (read.py lines 106-131).  `search` models
`re.search` with `re.IGNORECASE` (pattern first, text second); the `checks`
list is built exactly as in the source, one entry per configured (truthy)
regex, then combined: empty ⇒ `True`; mode `"all"` ⇒ `all(checks)`;
otherwise ⇒ `any(checks)`.  The source default for `regex_mode` is `"any"`
(line 108). -/
def filter_by_regex (search : String → String → Bool)
    (subject : String) (body : BodyVal) (sender : String)
    (subject_re body_re from_re : Option String)
    (regex_mode : String := "any") : Bool :=
  let checks : List Bool := []
  let checks := if truthyOpt subject_re then
    checks ++ [search (subject_re.getD "") subject] else checks
  let checks := if truthyOpt body_re then
    checks ++ [search (body_re.getD "") (body_text_of body)] else checks
  let checks := if truthyOpt from_re then
    checks ++ [search (from_re.getD "") sender] else checks
  if checks.isEmpty then true
  else if regex_mode = "all" then checks.all id
  else checks.any id

/-- A POP3 message reference as produced by `fetch_message_ids_pop3`:
`{"index": int, "uid": str}`. -/
structure Pop3Ref : Type where
  index : Nat
  uid : String
deriving DecidableEq

/-- IMAP sort step (read.py line 313):
`ids = list(reversed(ids)) if sort_criteria == "oldest" else ids`. -/
def imap_sort_ids (ids : List Nat) (sort_criteria : String) : List Nat :=
  if sort_criteria = "oldest" then ids.reverse else ids

/-- IMAP truncation step (read.py lines 316-317):
`if not (limit < 0 or limit > len(ids)): ids = ids[:limit]`. -/
def imap_truncate_ids (ids : List Nat) (limit : Int) : List Nat :=
  if ¬(limit < 0 ∨ (ids.length : Int) < limit) then ids.take limit.toNat
  else ids

/-- Embedding of the post-search part of `fetch_message_ids_imap`
(read.py lines 306-323).  `ids` is the id list returned by the server search
(`data[0].split()`), `k` the `random.choice` draw index; the result is `none`
exactly when the Python code raises (the `random.choice` on an empty list). -/
def fetch_message_ids_imap (ids : List Nat) (sort_criteria : String)
    (limit : Int) (random_pick : Bool) (k : Nat) : Option (List Nat) :=
  if ids.isEmpty then some []
  else
    let sorted := imap_sort_ids ids sort_criteria
    let truncated := imap_truncate_ids sorted limit
    if random_pick then (random_choice truncated k).map (fun x => [x])
    else some truncated

/-- POP3 sort step (read.py line 169):
`ids = list(reversed(ids)) if sort_criteria == "newest" else ids`. -/
def pop3_sort_ids (ids : List Pop3Ref) (sort_criteria : String) :
    List Pop3Ref :=
  if sort_criteria = "newest" then ids.reverse else ids

/-- POP3 truncation step (read.py lines 171-172):
`if limit > 0: ids = ids[:limit]`. -/
def pop3_truncate_ids (ids : List Pop3Ref) (limit : Int) : List Pop3Ref :=
  if 0 < limit then ids.take limit.toNat else ids

/-- Embedding of the post-listing part of `fetch_message_ids_pop3`
(read.py lines 164-179).  `ids` is the `{index, uid}` list obtained from
UIDL (or the LIST fallback), `k` the `random.choice` draw index.  Note the
guard `if random_pick and ids:` protecting the random draw. -/
def fetch_message_ids_pop3 (ids : List Pop3Ref) (limit : Int)
    (sort_criteria : String) (random_pick : Bool) (k : Nat) :
    Option (List Pop3Ref) :=
  if ids.isEmpty then some []
  else
    let sorted := pop3_sort_ids ids sort_criteria
    let truncated := pop3_truncate_ids sorted limit
    if random_pick ∧ ¬truncated.isEmpty then
      (random_choice truncated k).map (fun x => [x])
    else some truncated

/-- The date-exclusion test of `select_messages_pop3` (read.py lines 217-235).
`parse_date` models `email.utils.parsedate_to_datetime` followed by the
naive-UTC normalisation (`none` models a raised parse exception, which the
code catches with only a log line, so the message is NOT excluded).  The
Python guard is `if date_str and (since_dt or before_dt)`: a missing or empty
`Date` header skips the whole check. -/
def pop3_date_excluded (parse_date : String → Option Int)
    (since_dt before_dt : Option Int) (date_str : Option String) : Bool :=
  if truthyOpt date_str ∧ (since_dt.isSome ∨ before_dt.isSome) then
    match parse_date (date_str.getD "") with
    | none => false
    | some t =>
      (match since_dt with | some s => decide (t < s) | none => false) ||
      (match before_dt with | some b => decide (b < t) | none => false)
  else false

/-- The per-message selection decision of `select_messages_pop3`
(read.py lines 217-239): a message survives iff it is not excluded by the
date check and passes `filter_by_regex`. -/
def pop3_message_selected (search : String → String → Bool)
    (parse_date : String → Option Int) (since_dt before_dt : Option Int)
    (date_str : Option String) (subject : String) (body : BodyVal)
    (sender : String) (subject_re body_re from_re : Option String)
    (regex_mode : String) : Bool :=
  if pop3_date_excluded parse_date since_dt before_dt date_str then false
  else filter_by_regex search subject body sender subject_re body_re from_re
    regex_mode

/-- An email message part tree, as seen through the `email.message.Message`
interface used by `extract_body_from_msg`: each node has a content type
(`get_content_type`), a content disposition (`get_content_disposition`,
`None` when absent), and for leaves a decode result modelling
`get_payload(decode=True).decode(charset or "utf-8", errors="ignore")`
(`none` models a raised exception).  On a multipart node
`get_payload(decode=True)` returns `None`, so its decode always raises. -/
inductive Msg : Type
  | leaf : (ctype : String) → (dispo : Option String) →
      (decoded : Option String) → Msg
  | multipart : (ctype : String) → (dispo : Option String) →
      (parts : List Msg) → Msg

def Msg.ctype : Msg → String
  | .leaf c _ _ => c
  | .multipart c _ _ => c

def Msg.dispo : Msg → Option String
  | .leaf _ d _ => d
  | .multipart _ d _ => d

/-- `Message.is_multipart()`. -/
def Msg.is_multipart : Msg → Bool
  | .leaf _ _ _ => false
  | .multipart _ _ _ => true

/-- `get_payload(decode=True).decode(...)`: `none` when the Python expression
raises (always, on a multipart node, since `get_payload(decode=True)` is
`None` there). -/
def Msg.decodedPayload : Msg → Option String
  | .leaf _ _ p => p
  | .multipart _ _ _ => none

mutual

/-- `Message.walk()`: depth-first, the node itself first, then its parts. -/
def Msg.walk : Msg → List Msg
  | .leaf c d p => [.leaf c d p]
  | .multipart c d parts => .multipart c d parts :: Msg.walkList parts

def Msg.walkList : List Msg → List Msg
  | [] => []
  | m :: ms => m.walk ++ Msg.walkList ms

end

/-- Embedding of `extract_body_from_msg` (mail_utils.py lines 141-167).
Multipart: walk all parts, keep those with content type `text/plain` or
`text/html` and disposition ≠ `attachment`, dropping parts whose decode
raises (`try ... except: continue`).  Non-multipart: append the sole decoded
payload with its content type, whatever they are — no content-type or
disposition check is made on this branch (`try ... except: pass`). -/
def extract_body_from_msg (msg : Msg) : List (String × String) :=
  if msg.is_multipart then
    msg.walk.filterMap (fun part =>
      if (part.ctype = "text/plain" ∨ part.ctype = "text/html")
          ∧ part.dispo ≠ some "attachment" then
        part.decodedPayload.map (fun text => (part.ctype, text))
      else none)
  else
    match msg.decodedPayload with
    | some text => [(msg.ctype, text)]
    | none => []

/-- A normalized message record as built by the selection functions
(read.py lines 241-249 and 372-380); `raw_msg` is the parsed message, the
remaining fields the extracted headers and body. -/
structure MsgRecord : Type where
  id : String
  raw_msg : Msg
  date : String
  subject : String
  fromAddr : String
  toAddr : String
  body : BodyVal

/-- One entry of the `performed` list of `perform_actions_on_message`
(read.py lines 504-518): a single-key dict recording the action's outcome. -/
inductive ActionOutcome : Type
  | navigated_links : List String → ActionOutcome
  | downloaded : List String → ActionOutcome
  | saved_mail : String → ActionOutcome
  | executed : List String → ActionOutcome
  | opened : List String → ActionOutcome
deriving DecidableEq

/-- The result dict of `perform_actions_on_message` (read.py lines 490-492). -/
structure ActionResult : Type where
  id : String
  date : String
  subject : String
  fromAddr : String
  toAddr : String
  performed : List ActionOutcome
deriving DecidableEq

/-- The effectful helpers invoked by the action loop (read.py lines 502-518),
abstracted as an environment.  Each field returns `none` when the Python call
raises (the surrounding `try`/`except` then logs and moves on):
`click_links_in_body` returns the opened links, `download_attachment` the
saved attachment paths, `save_full_email` the saved `.eml` path;
`execute_files` and `open_with_default` return `some ()` on normal return. -/
structure ActionEnv : Type where
  click_links_in_body : BodyVal → Option (List String)
  download_attachment : Option (List String)
  save_full_email : String → Option String
  execute_files : List String → Option Unit
  open_with_default : List String → Option Unit

/-- The body of one iteration of the action loop (read.py lines 500-523):
the `performed` entry appended for action `act`, or `none` when the action
raised (caught and logged) or the action name is unknown (logged, no entry).
For `exec` and `open` the attachments are downloaded first; a failure there
aborts the whole action before the entry is appended. -/
def run_action (env : ActionEnv) (rec : MsgRecord) (act : String) :
    Option ActionOutcome :=
  if act = "navigate" then
    (env.click_links_in_body rec.body).map .navigated_links
  else if act = "download-attachments" then
    env.download_attachment.map .downloaded
  else if act = "download-mail" then
    (env.save_full_email rec.subject).map .saved_mail
  else if act = "exec" then
    match env.download_attachment with
    | none => none
    | some saved => (env.execute_files saved).map (fun _ => .executed saved)
  else if act = "open" then
    match env.download_attachment with
    | none => none
    | some saved => (env.open_with_default saved).map (fun _ => .opened saved)
  else none

/-- Line 498 of read.py:
`chosen_actions = actions if action_mode == "all" or not actions
                  else [random.choice(actions)]`. -/
def chosen_actions (actions : List String) (action_mode : String) (k : Nat) :
    List String :=
  if action_mode = "all" ∨ actions.isEmpty then actions
  else (random_choice actions k).toList

/-- The result skeleton built at read.py lines 490-492. -/
def mkActionResult (rec : MsgRecord) (performed : List ActionOutcome) :
    ActionResult :=
  { id := rec.id, date := rec.date, subject := rec.subject,
    fromAddr := rec.fromAddr, toAddr := rec.toAddr, performed := performed }

/-- Embedding of `perform_actions_on_message` (read.py lines 472-524):
build the result skeleton; with no requested actions return it immediately
(line 494-495); otherwise run each chosen action in order, appending an
outcome entry exactly when the action completes (`try`/`except` per action). -/
def perform_actions_on_message (env : ActionEnv) (rec : MsgRecord)
    (actions : List String) (action_mode : String) (k : Nat) : ActionResult :=
  if actions.isEmpty then mkActionResult rec []
  else mkActionResult rec
    ((chosen_actions actions action_mode k).filterMap (run_action env rec))

/-- Digit-string accumulator for `python_int_chars`. -/
def decodeDigitsAux : List Char → Nat → Option Nat
  | [], acc => some acc
  | c :: cs, acc =>
    if c.isDigit then decodeDigitsAux cs (10 * acc + (c.toNat - 48))
    else none

/-- A non-empty all-digit character list parsed as a natural number. -/
def decodeDigits : List Char → Option Nat
  | [] => none
  | c :: cs => decodeDigitsAux (c :: cs) 0

/-- Model of Python `int(s)` on the whitespace-free UID tokens produced by
`line.decode().split()`: an optional sign followed by a non-empty digit
string; `none` models the `ValueError` raised otherwise. -/
def python_int_chars : List Char → Option Int
  | [] => none
  | c :: cs =>
    if c = '+' then (decodeDigits cs).map Int.ofNat
    else if c = '-' then (decodeDigits cs).map (fun n => -(n : Int))
    else (decodeDigits (c :: cs)).map Int.ofNat

/-- Model of Python `int` on a string (see `python_int_chars`). -/
def python_int (s : String) : Option Int :=
  python_int_chars s.data

/-- The per-record processing loop of `read_emails` (read.py lines 701-711),
restricted to its observable bookkeeping: every record is appended to
`results_all`, and when the protocol is POP3 and `pop3_delete` is set a
`client.dele(int(record["id"]) + 1)` call is attempted — `int` on a
non-numeric UID raises, the exception is caught and logged, and no delete is
issued for that record.  Returns `(results_all, issued dele arguments)`.
(The per-record action results appended alongside are modelled by
`perform_actions_on_message` separately.) -/
def read_emails_step (protocol : String) (pop3_delete : Bool)
    (acc : List MsgRecord × List Int) (record : MsgRecord) :
    List MsgRecord × List Int :=
  let results_all := acc.1 ++ [record]
  let deles :=
    if protocol = "pop3" ∧ pop3_delete then
      match python_int record.id with
      | some n => acc.2 ++ [n + 1]
      | none => acc.2
    else acc.2
  (results_all, deles)

/-- The whole loop of read.py lines 701-711 (see `read_emails_step`). -/
def read_emails_process (records : List MsgRecord) (protocol : String)
    (pop3_delete : Bool) : List MsgRecord × List Int :=
  records.foldl (read_emails_step protocol pop3_delete) ([], [])

/-- The default of the `--regex-mode` CLI argument (read.py line 50). -/
def cli_regex_mode_default : String := "all"

/-- The default of the `regex_mode` parameter of `read_emails`
(read.py line 654); `filter_by_regex` has the same function-level default
(line 108). -/
def read_emails_regex_mode_default : String := "any"

/-- A concrete message record used to evaluate the pipeline on examples. -/
def sampleRecord : MsgRecord :=
  { id := "1", raw_msg := .leaf "text/plain" none (some "hello http://x.test"),
    date := "Mon, 1 Jan 2024 00:00:00 +0000", subject := "hi",
    fromAddr := "a@b.c", toAddr := "d@e.f",
    body := .str "hello http://x.test" }

/-- An action environment in which link-opening and mail-saving succeed but
attachment download raises. -/
def sampleEnvDownloadFails : ActionEnv :=
  { click_links_in_body := fun _ => some ["http://x.test"],
    download_attachment := none,
    save_full_email := fun s => some (s ++ ".eml"),
    execute_files := fun _ => some (),
    open_with_default := fun _ => some () }

/-- An action environment in which every helper succeeds. -/
def sampleEnvAllOk : ActionEnv :=
  { click_links_in_body := fun _ => some ["http://x.test"],
    download_attachment := some ["/tmp/a.bin"],
    save_full_email := fun s => some (s ++ ".eml"),
    execute_files := fun _ => some (),
    open_with_default := fun _ => some () }

/-! ## Helper lemmas -/

lemma random_choice_mem {α : Type} (l : List α) (k : Nat) (h : l ≠ []) :
    ∃ x, x ∈ l ∧ random_choice l k = some x := by
  have hlen : 0 < l.length := List.length_pos.mpr h
  have hk : k % l.length < l.length := Nat.mod_lt k hlen
  exact ⟨l.get ⟨k % l.length, hk⟩, List.get_mem l _ _, List.get?_eq_get hk⟩

lemma random_choice_isSome {α : Type} (l : List α) (k : Nat) (h : l ≠ []) :
    (random_choice l k).isSome = true := by
  obtain ⟨x, -, hx⟩ := random_choice_mem l k h
  simp [hx]

lemma filter_by_regex_all_iff (search : String → String → Bool)
    (subject : String) (body : BodyVal) (sender : String)
    (subject_re body_re from_re : Option String) :
    filter_by_regex search subject body sender subject_re body_re from_re
      "all" = true ↔
    ((truthyOpt subject_re = true → search (subject_re.getD "") subject = true)
      ∧ (truthyOpt body_re = true →
          search (body_re.getD "") (body_text_of body) = true)
      ∧ (truthyOpt from_re = true → search (from_re.getD "") sender = true)) := by
  by_cases hs : truthyOpt subject_re = true <;>
  by_cases hb : truthyOpt body_re = true <;>
  by_cases hf : truthyOpt from_re = true <;>
  simp [filter_by_regex, hs, hb, hf]

lemma filter_by_regex_any_iff (search : String → String → Bool)
    (subject : String) (body : BodyVal) (sender : String)
    (subject_re body_re from_re : Option String) :
    filter_by_regex search subject body sender subject_re body_re from_re
      "any" = true ↔
    ((truthyOpt subject_re = false ∧ truthyOpt body_re = false
        ∧ truthyOpt from_re = false)
      ∨ (truthyOpt subject_re = true ∧ search (subject_re.getD "") subject = true)
      ∨ (truthyOpt body_re = true ∧
          search (body_re.getD "") (body_text_of body) = true)
      ∨ (truthyOpt from_re = true ∧ search (from_re.getD "") sender = true)) := by
  by_cases hs : truthyOpt subject_re = true <;>
  by_cases hb : truthyOpt body_re = true <;>
  by_cases hf : truthyOpt from_re = true <;>
  simp [filter_by_regex, hs, hb, hf]

lemma perform_performed_eq (env : ActionEnv) (rec : MsgRecord)
    (actions : List String) (action_mode : String) (k : Nat) :
    (perform_actions_on_message env rec actions action_mode k).performed
      = (chosen_actions actions action_mode k).filterMap (run_action env rec) := by
  by_cases h : actions.isEmpty
  · have h0 : actions = [] := List.isEmpty_iff.mp h
    subst h0
    simp [perform_actions_on_message, chosen_actions, mkActionResult]
  · simp [perform_actions_on_message, h, mkActionResult]

lemma read_emails_process_aux (protocol : String) (pd : Bool)
    (records : List MsgRecord) (acc : List MsgRecord × List Int) :
    records.foldl (read_emails_step protocol pd) acc
      = (acc.1 ++ records,
         acc.2 ++ (if protocol = "pop3" ∧ pd then
           records.filterMap (fun r => (python_int r.id).map (fun n => n + 1))
           else [])) := by
  induction records generalizing acc with
  | nil => simp
  | cons r rs ih =>
    rw [List.foldl_cons, ih]
    by_cases hp : protocol = "pop3" ∧ pd
    · cases hpi : python_int r.id <;>
        simp [read_emails_step, hp, hpi, List.append_assoc]
    · simp [read_emails_step, hp]

/-! ## Claims -/

/-- C1: the enumerators' sort conventions are mirror images.  For IMAP (ids
returned by the server in its order, ascending ids being oldest first),
`sort="oldest"` reverses the returned list and `sort="newest"` keeps server
order; for POP3, `sort="newest"` reverses the list and `sort="oldest"` keeps
server order.  (With `limit = -1` and no random pick, the enumerators return
exactly the sorted list.) -/
theorem C1_sort_conventions_mirror :
    (∀ ids : List Nat,
      fetch_message_ids_imap ids "oldest" (-1) false 0 = some ids.reverse) ∧
    (∀ ids : List Nat,
      fetch_message_ids_imap ids "newest" (-1) false 0 = some ids) ∧
    (∀ ids : List Pop3Ref,
      fetch_message_ids_pop3 ids (-1) "newest" false 0 = some ids.reverse) ∧
    (∀ ids : List Pop3Ref,
      fetch_message_ids_pop3 ids (-1) "oldest" false 0 = some ids) := by
  refine ⟨fun ids => ?_, fun ids => ?_, fun ids => ?_, fun ids => ?_⟩ <;>
  · by_cases h : ids.isEmpty
    · have h0 := List.isEmpty_iff.mp h
      subst h0
      rfl
    · simp [fetch_message_ids_imap, fetch_message_ids_pop3, h, imap_sort_ids,
        pop3_sort_ids, imap_truncate_ids, pop3_truncate_ids]

/-- C2 counterexample: the truncation rules are NOT the same for the two
protocols.  With `limit = 0` (which is `>= 0` and less than the candidate
count) the claim says both enumerators keep no candidates; the POP3
enumerator (read.py line 171: `if limit > 0`) skips truncation entirely and
returns all three candidates, while the IMAP enumerator returns none. -/
theorem C2_counterexample :
    fetch_message_ids_pop3 [⟨1, "1"⟩, ⟨2, "2"⟩, ⟨3, "3"⟩] 0 "oldest" false 0
      = some [⟨1, "1"⟩, ⟨2, "2"⟩, ⟨3, "3"⟩] ∧
    fetch_message_ids_pop3 [⟨1, "1"⟩, ⟨2, "2"⟩, ⟨3, "3"⟩] 0 "oldest" false 0
      ≠ some [] ∧
    fetch_message_ids_imap [1, 2, 3] "oldest" 0 false 0 = some [] := by
  refine ⟨by decide, by decide, by decide⟩

/-- C2 amended: after ordering, the IMAP enumerator truncates to `limit`
whenever `limit >= 0` (the result is the first `limit` elements post-sort),
while the POP3 enumerator truncates only when `limit > 0` (`limit = 0`
leaves the candidate list whole); for `limit > 0` the two protocols agree.
When `random_pick` is set and the post-truncation candidate list is
non-empty, each enumerator returns exactly one element of that list. -/
theorem C2_truncation_and_random_amended :
    (∀ (ids : List Nat) (sortc : String) (k : Nat) (limit : Int),
      0 ≤ limit →
      fetch_message_ids_imap ids sortc limit false k
        = some ((imap_sort_ids ids sortc).take limit.toNat)) ∧
    (∀ (ids : List Pop3Ref) (sortc : String) (k : Nat) (limit : Int),
      0 < limit →
      fetch_message_ids_pop3 ids limit sortc false k
        = some ((pop3_sort_ids ids sortc).take limit.toNat)) ∧
    (∀ (ids : List Nat) (sortc : String) (k : Nat) (limit : Int),
      imap_truncate_ids (imap_sort_ids ids sortc) limit ≠ [] →
      ∃ x, x ∈ imap_truncate_ids (imap_sort_ids ids sortc) limit ∧
        fetch_message_ids_imap ids sortc limit true k = some [x]) ∧
    (∀ (ids : List Pop3Ref) (sortc : String) (k : Nat) (limit : Int),
      pop3_truncate_ids (pop3_sort_ids ids sortc) limit ≠ [] →
      ∃ x, x ∈ pop3_truncate_ids (pop3_sort_ids ids sortc) limit ∧
        fetch_message_ids_pop3 ids limit sortc true k = some [x]) := by
  have imap_sort_nil : ∀ sortc, imap_sort_ids [] sortc = [] := by
    intro sortc; simp [imap_sort_ids]
  have pop3_sort_nil : ∀ sortc, pop3_sort_ids [] sortc = [] := by
    intro sortc; simp [pop3_sort_ids]
  have imap_trunc_take : ∀ (l : List Nat) (limit : Int), 0 ≤ limit →
      imap_truncate_ids l limit = l.take limit.toNat := by
    intro l limit hlim
    unfold imap_truncate_ids
    by_cases hlt : (l.length : Int) < limit
    · rw [if_neg (not_not_intro (Or.inr hlt))]
      have hle : l.length ≤ limit.toNat := by omega
      exact (List.take_of_length_le hle).symm
    · rw [if_pos (by omega)]
  refine ⟨?_, ?_, ?_, ?_⟩
  · intro ids sortc k limit hlim
    by_cases h : ids.isEmpty
    · have h0 := List.isEmpty_iff.mp h
      subst h0
      simp [fetch_message_ids_imap, imap_sort_nil]
    · simp [fetch_message_ids_imap, h, imap_trunc_take _ _ hlim]
  · intro ids sortc k limit hlim
    by_cases h : ids.isEmpty
    · have h0 := List.isEmpty_iff.mp h
      subst h0
      simp [fetch_message_ids_pop3, pop3_sort_nil]
    · have htr : pop3_truncate_ids (pop3_sort_ids ids sortc) limit
          = (pop3_sort_ids ids sortc).take limit.toNat := by
        unfold pop3_truncate_ids
        rw [if_pos hlim]
      simp [fetch_message_ids_pop3, h, htr]
  · intro ids sortc k limit htrunc
    have hids : ¬ids.isEmpty := by
      intro h
      apply htrunc
      have h0 := List.isEmpty_iff.mp h
      subst h0
      simp [imap_sort_nil, imap_truncate_ids]
    obtain ⟨x, hmem, hch⟩ :=
      random_choice_mem (imap_truncate_ids (imap_sort_ids ids sortc) limit)
        k htrunc
    refine ⟨x, hmem, ?_⟩
    simp [fetch_message_ids_imap, hids, hch]
  · intro ids sortc k limit htrunc
    have hids : ¬ids.isEmpty := by
      intro h
      apply htrunc
      have h0 := List.isEmpty_iff.mp h
      subst h0
      simp [pop3_sort_nil, pop3_truncate_ids]
    obtain ⟨x, hmem, hch⟩ :=
      random_choice_mem (pop3_truncate_ids (pop3_sort_ids ids sortc) limit)
        k htrunc
    refine ⟨x, hmem, ?_⟩
    have hne : ¬(pop3_truncate_ids (pop3_sort_ids ids sortc) limit).isEmpty :=
      by simpa [List.isEmpty_iff] using htrunc
    simp [fetch_message_ids_pop3, hids, hne, hch]

/-- Witness for the amended C2: `limit = 2` on five POP3 candidates keeps the
first two post-sort, and an IMAP random pick on a non-empty post-limit set
returns (does not raise). -/
theorem C2_truncation_and_random_witness :
    fetch_message_ids_pop3
      [⟨1, "1"⟩, ⟨2, "2"⟩, ⟨3, "3"⟩, ⟨4, "4"⟩, ⟨5, "5"⟩] 2 "oldest" false 0
      = some [⟨1, "1"⟩, ⟨2, "2"⟩] ∧
    fetch_message_ids_imap [1, 2, 3] "newest" 2 true 5 ≠ none := by
  constructor
  · have h := C2_truncation_and_random_amended.2.1
      [⟨1, "1"⟩, ⟨2, "2"⟩, ⟨3, "3"⟩, ⟨4, "4"⟩, ⟨5, "5"⟩] "oldest" 0 2
      (by decide)
    rw [h]
    decide
  · obtain ⟨x, -, hx⟩ := C2_truncation_and_random_amended.2.2.1
      [1, 2, 3] "newest" 5 2 (by decide)
    rw [hx]
    simp

/-- C3: for every matcher, record and filter configuration with mode `all` or
`any`, the regex stage returns true iff no regex predicate is configured, or
mode is `all` and every configured predicate matches, or mode is `any` and at
least one configured predicate matches; unconfigured (absent or empty)
predicates are absent from the combination.  (Case-insensitivity lives in the
abstract matcher, which models `re.search` with `re.IGNORECASE`.) -/
theorem C3_regex_stage_combination (search : String → String → Bool)
    (subject : String) (body : BodyVal) (sender : String)
    (subject_re body_re from_re : Option String) (mode : String)
    (hmode : mode = "all" ∨ mode = "any") :
    filter_by_regex search subject body sender subject_re body_re from_re mode
      = true ↔
    ((truthyOpt subject_re = false ∧ truthyOpt body_re = false
        ∧ truthyOpt from_re = false)
      ∨ (mode = "all"
          ∧ (truthyOpt subject_re = true →
              search (subject_re.getD "") subject = true)
          ∧ (truthyOpt body_re = true →
              search (body_re.getD "") (body_text_of body) = true)
          ∧ (truthyOpt from_re = true →
              search (from_re.getD "") sender = true))
      ∨ (mode = "any"
          ∧ ((truthyOpt subject_re = true
                ∧ search (subject_re.getD "") subject = true)
            ∨ (truthyOpt body_re = true
                ∧ search (body_re.getD "") (body_text_of body) = true)
            ∨ (truthyOpt from_re = true
                ∧ search (from_re.getD "") sender = true)))) := by
  rcases hmode with rfl | rfl
  · rw [filter_by_regex_all_iff]
    constructor
    · intro h
      exact Or.inr (Or.inl ⟨rfl, h⟩)
    · rintro (⟨hs, hb, hf⟩ | ⟨-, h⟩ | ⟨habs, -⟩)
      · exact ⟨fun hc => absurd hc (by simp [hs]),
          fun hc => absurd hc (by simp [hb]),
          fun hc => absurd hc (by simp [hf])⟩
      · exact h
      · exact absurd habs (by decide)
  · rw [filter_by_regex_any_iff]
    constructor
    · rintro (hnone | hone | hone | hone)
      · exact Or.inl hnone
      · exact Or.inr (Or.inr ⟨rfl, Or.inl hone⟩)
      · exact Or.inr (Or.inr ⟨rfl, Or.inr (Or.inl hone)⟩)
      · exact Or.inr (Or.inr ⟨rfl, Or.inr (Or.inr hone)⟩)
    · rintro (hnone | ⟨habs, -⟩ | ⟨-, h⟩)
      · exact Or.inl hnone
      · exact absurd habs (by decide)
      · rcases h with h | h | h
        · exact Or.inr (Or.inl h)
        · exact Or.inr (Or.inr (Or.inl h))
        · exact Or.inr (Or.inr (Or.inr h))

/-- Witness for C3: `subject_regex="invoice"`, `body_regex="urgent"`,
`regex_mode="any"` on a record whose subject matches the first predicate
only is selected by the regex stage. -/
theorem C3_regex_stage_witness :
    filter_by_regex (fun p _ => p == "invoice") "Invoice #4" (.str "please pay")
      "a@b.c" (some "invoice") (some "urgent") none "any" = true := by
  refine (C3_regex_stage_combination (fun p _ => p == "invoice") "Invoice #4"
    (.str "please pay") "a@b.c" (some "invoice") (some "urgent") none "any"
    (Or.inr rfl)).mpr ?_
  exact Or.inr (Or.inr ⟨rfl, Or.inl ⟨by decide, by decide⟩⟩)

/-- C4 (claim vs code): on the claim's multipart example the extraction does
return exactly the non-attachment text parts in document order; but on a
NON-multipart message `extract_body_from_msg` appends the sole payload with
no content-type or disposition check at all (mail_utils.py lines 159-165), so
a single-part message whose disposition is `attachment` and whose content
type is neither `text/plain` nor `text/html` still has its payload returned —
contradicting the claim (and the function's own docstring, which promises
only `text/plain`/`text/html` payloads and that attachments are ignored). -/
theorem C4_extract_body_nonmultipart_counterexample :
    extract_body_from_msg
      (.leaf "application/pdf" (some "attachment") (some "PDFDATA"))
      = [("application/pdf", "PDFDATA")] ∧
    extract_body_from_msg (.multipart "multipart/mixed" none
      [.leaf "text/plain" none (some "A"),
       .leaf "application/octet-stream" (some "attachment") (some "B"),
       .leaf "text/html" none (some "<p>C</p>")])
      = [("text/plain", "A"), ("text/html", "<p>C</p>")] := by
  exact ⟨by decide, by decide⟩

/-- C5: an exception raised while executing one action is caught and does not
prevent the remaining actions of the same invocation from running, and
`performed` records only completed actions: a failing action contributes no
entry (first conjunct: dropping a failing action from the requested list
leaves `performed` unchanged), and every `performed` entry is the successful
outcome of one of the chosen actions (second conjunct). -/
theorem C5_action_failure_isolation :
    (∀ (env : ActionEnv) (rec : MsgRecord) (pre post : List String)
        (a : String) (k : Nat), run_action env rec a = none →
      (perform_actions_on_message env rec (pre ++ a :: post) "all" k).performed
        = (perform_actions_on_message env rec (pre ++ post) "all" k).performed)
    ∧
    (∀ (env : ActionEnv) (rec : MsgRecord) (actions : List String)
        (mode : String) (k : Nat) (o : ActionOutcome),
      o ∈ (perform_actions_on_message env rec actions mode k).performed →
      ∃ act, act ∈ chosen_actions actions mode k
        ∧ run_action env rec act = some o) := by
  constructor
  · intro env rec pre post a k h
    rw [perform_performed_eq, perform_performed_eq]
    have hch : ∀ l : List String, chosen_actions l "all" k = l := by
      intro l
      simp [chosen_actions]
    rw [hch, hch, List.filterMap_append, List.filterMap_append,
      List.filterMap_cons, h]
  · intro env rec actions mode k o hmem
    rw [perform_performed_eq] at hmem
    exact List.mem_filterMap.mp hmem

/-- Witness for C5: with an environment in which attachment download raises,
the failing `download-attachments` action contributes no entry and the
following `download-mail` action still runs. -/
theorem C5_action_failure_isolation_witness :
    run_action sampleEnvDownloadFails sampleRecord "download-attachments"
      = none ∧
    (perform_actions_on_message sampleEnvDownloadFails sampleRecord
        ["navigate", "download-attachments", "download-mail"] "all" 0).performed
      = (perform_actions_on_message sampleEnvDownloadFails sampleRecord
        ["navigate", "download-mail"] "all" 0).performed := by
  have h : run_action sampleEnvDownloadFails sampleRecord
      "download-attachments" = none := by decide
  exact ⟨h, C5_action_failure_isolation.1 sampleEnvDownloadFails sampleRecord
    ["navigate"] ["download-mail"] "download-attachments" 0 h⟩

/-- C6: with an empty requested action set, `perform_actions_on_message`
returns the record skeleton with an empty `performed` list, independently of
the environment (line 494-495 returns before any helper is invoked, so no
side effects occur); with a non-empty set and `action_mode="random"`, the
chosen-action list collapses to exactly one member of the requested set
before execution and only that member is executed.  (Uniformity of the draw
is the contract of `random.choice`; the embedding treats the draw index as
arbitrary.) -/
theorem C6_empty_and_random_mode :
    (∀ (env : ActionEnv) (rec : MsgRecord) (mode : String) (k : Nat),
      perform_actions_on_message env rec [] mode k = mkActionResult rec []) ∧
    (∀ (env : ActionEnv) (rec : MsgRecord) (actions : List String) (k : Nat),
      actions ≠ [] →
      ∃ a, a ∈ actions ∧ chosen_actions actions "random" k = [a] ∧
        (perform_actions_on_message env rec actions "random" k).performed
          = (run_action env rec a).toList) := by
  constructor
  · intro env rec mode k
    simp [perform_actions_on_message]
  · intro env rec actions k h
    have hne : ¬actions.isEmpty := by simpa [List.isEmpty_iff] using h
    obtain ⟨a, hmem, hch⟩ := random_choice_mem actions k h
    have hchosen : chosen_actions actions "random" k = [a] := by
      simp [chosen_actions, hne, hch]
    refine ⟨a, hmem, hchosen, ?_⟩
    rw [perform_performed_eq, hchosen]
    cases hra : run_action env rec a <;> simp [hra]

/-- Witness for C6: empty action set gives an empty `performed` result, and
`actions=["navigate","open"]` with `mode="random"` performs exactly one
action. -/
theorem C6_empty_and_random_mode_witness :
    perform_actions_on_message sampleEnvAllOk sampleRecord [] "random" 3
      = mkActionResult sampleRecord [] ∧
    (perform_actions_on_message sampleEnvAllOk sampleRecord
        ["navigate", "open"] "random" 0).performed.length = 1 := by
  refine ⟨C6_empty_and_random_mode.1 sampleEnvAllOk sampleRecord "random" 3,
    ?_⟩
  obtain ⟨a, hmem, -, hperf⟩ := C6_empty_and_random_mode.2 sampleEnvAllOk
    sampleRecord ["navigate", "open"] 0 (by decide)
  rw [hperf]
  rcases List.mem_cons.mp hmem with rfl | hmem2
  · decide
  · rcases List.mem_singleton.mp hmem2 with rfl
    decide

/-- C7: a message whose `Date` header is absent or fails to parse is never
excluded by the client-side date-range filters: the date check is skipped
and the selection outcome equals the regex stage's verdict alone. -/
theorem C7_unparseable_date_never_excluded (search : String → String → Bool)
    (parse_date : String → Option Int) (since_dt before_dt : Option Int)
    (date_str : Option String) (subject : String) (body : BodyVal)
    (sender : String) (subject_re body_re from_re : Option String)
    (mode : String) (h : ∀ d, date_str = some d → parse_date d = none) :
    pop3_message_selected search parse_date since_dt before_dt date_str
        subject body sender subject_re body_re from_re mode
      = filter_by_regex search subject body sender subject_re body_re from_re
        mode := by
  have hex : pop3_date_excluded parse_date since_dt before_dt date_str
      = false := by
    unfold pop3_date_excluded
    rcases date_str with _ | d
    · simp [truthyOpt]
    · have hp : parse_date d = none := h d rfl
      simp [hp]
  unfold pop3_message_selected
  rw [hex]
  simp

/-- Witness for C7: with a configured `date_since` bound, a parser that
always fails, and a matching subject regex, the message is still selected. -/
theorem C7_unparseable_date_witness :
    pop3_message_selected (fun _ _ => true) (fun _ => none) (some 100) none
        (some "not a date") "subj" (.str "text") "a@b.c" (some "s") none none
        "all" = true := by
  rw [C7_unparseable_date_never_excluded (fun _ _ => true) (fun _ => none)
    (some 100) none (some "not a date") "subj" (.str "text") "a@b.c"
    (some "s") none none "all" (fun _ _ => rfl)]
  decide

/-- C8 counterexample: the claim says a caller that does not specify
`regex_mode` gets AND semantics; but the function-level default of
`read_emails` (read.py line 654) and of `filter_by_regex` (line 108) is
`"any"`, so with the default mode a record with two configured predicates of
which only one matches (the matcher here accepts exactly the pattern
`"invoice"`) IS selected — the claim's "only if every configured predicate
matches" fails. -/
theorem C8_default_mode_counterexample :
    read_emails_regex_mode_default = "any" ∧
    truthyOpt (some "invoice") = true ∧
    truthyOpt (some "urgent") = true ∧
    (fun p _ => p == "invoice") "urgent" (body_text_of (.str "please pay"))
      = false ∧
    filter_by_regex (fun p _ => p == "invoice") "Invoice #4"
      (.str "please pay") "a@b.c" (some "invoice") (some "urgent") none
      read_emails_regex_mode_default = true := by
  exact ⟨rfl, by decide, by decide, by decide, by decide⟩

/-- C8 amended: the `--regex-mode` CLI flag defaults to `"all"` (AND), but
the function-level default of the selection engine (`read_emails` and
`filter_by_regex`) is `"any"` (OR): a direct caller that omits `regex_mode`
gets OR semantics, under which a record passes the regex stage iff no
predicate is configured or at least one configured predicate matches. -/
theorem C8_default_mode_amended :
    cli_regex_mode_default = "all" ∧
    read_emails_regex_mode_default = "any" ∧
    (∀ (search : String → String → Bool) (subject : String) (body : BodyVal)
        (sender : String) (subject_re body_re from_re : Option String),
      filter_by_regex search subject body sender subject_re body_re from_re
        = filter_by_regex search subject body sender subject_re body_re
          from_re read_emails_regex_mode_default) ∧
    (∀ (search : String → String → Bool) (subject : String) (body : BodyVal)
        (sender : String) (subject_re body_re from_re : Option String),
      filter_by_regex search subject body sender subject_re body_re from_re
        read_emails_regex_mode_default = true ↔
      ((truthyOpt subject_re = false ∧ truthyOpt body_re = false
          ∧ truthyOpt from_re = false)
        ∨ (truthyOpt subject_re = true
            ∧ search (subject_re.getD "") subject = true)
        ∨ (truthyOpt body_re = true
            ∧ search (body_re.getD "") (body_text_of body) = true)
        ∨ (truthyOpt from_re = true
            ∧ search (from_re.getD "") sender = true))) := by
  refine ⟨rfl, rfl, fun _ _ _ _ _ _ _ => rfl, ?_⟩
  intro search subject body sender subject_re body_re from_re
  exact filter_by_regex_any_iff search subject body sender subject_re
    body_re from_re

/-- C9: on a non-empty IMAP search result, `limit = 0` with `random_pick`
makes the IMAP enumerator raise (the truncated list is empty and
`random.choice([])` raises `IndexError`, modelled by `none`) instead of
returning a list; the POP3 enumerator's `if random_pick and ids:` guard
means it always returns normally, whatever the arguments. -/
theorem C9_limit_zero_random_pick :
    (∀ (ids : List Nat) (sortc : String) (k : Nat), ids ≠ [] →
      fetch_message_ids_imap ids sortc 0 true k = none) ∧
    (∀ (ids : List Pop3Ref) (limit : Int) (sortc : String) (rp : Bool)
        (k : Nat), fetch_message_ids_pop3 ids limit sortc rp k ≠ none) := by
  constructor
  · intro ids sortc k h
    have hne : ¬ids.isEmpty := by simpa [List.isEmpty_iff] using h
    have hlen : imap_truncate_ids (imap_sort_ids ids sortc) 0 = [] := by
      unfold imap_truncate_ids
      rw [if_pos]
      · simp
      · push_neg
        constructor
        · decide
        · exact Int.natCast_nonneg _
    simp [fetch_message_ids_imap, hne, hlen, random_choice]
  · intro ids limit sortc rp k
    by_cases h : ids.isEmpty
    · simp [fetch_message_ids_pop3, h]
    · unfold fetch_message_ids_pop3
      rw [if_neg (by simpa using h)]
      by_cases hg : rp ∧ ¬(pop3_truncate_ids (pop3_sort_ids ids sortc)
          limit).isEmpty
      · rw [if_pos hg]
        obtain ⟨x, -, hx⟩ := random_choice_mem
          (pop3_truncate_ids (pop3_sort_ids ids sortc) limit) k
          (by simpa [List.isEmpty_iff] using hg.2)
        simp [hx]
      · rw [if_neg hg]
        simp

/-- Witness for C9: three search ids with `limit = 0` and random pick raise
on IMAP; the POP3 enumerator returns normally on the same configuration. -/
theorem C9_limit_zero_random_pick_witness :
    fetch_message_ids_imap [1, 2, 3] "newest" 0 true 7 = none ∧
    fetch_message_ids_pop3 [⟨1, "a"⟩, ⟨2, "b"⟩, ⟨3, "c"⟩] 0 "newest" true 7
      ≠ none := by
  exact ⟨C9_limit_zero_random_pick.1 [1, 2, 3] "newest" 7 (by decide),
    C9_limit_zero_random_pick.2 [⟨1, "a"⟩, ⟨2, "b"⟩, ⟨3, "c"⟩] 0 "newest"
      true 7⟩

/-- C10: when `pop3_delete` is set, the `read_emails` loop issues the POP3
delete as `dele(int(uid) + 1)` computed from the record's UID string (the
`"id"` field, which `select_messages_pop3` sets to the UIDL token, not the
enumeration index): the issued `dele` arguments are exactly
`int(uid) + 1` for the records whose UID parses as a decimal integer.  For
every record whose UID is not a decimal integer string — including every
synthesized `"msg-<index>"` UID from the LIST fallback — the `int` conversion
raises, the exception is caught, no delete is issued, and the returned result
list (first component) still contains every selected record. -/
theorem C10_pop3_delete_uses_uid :
    (∀ records : List MsgRecord,
      (read_emails_process records "pop3" true).1 = records ∧
      (read_emails_process records "pop3" true).2
        = records.filterMap
            (fun r => (python_int r.id).map (fun n => n + 1))) ∧
    (∀ s : String, python_int ("msg-" ++ s) = none) ∧
    (∀ r : MsgRecord, python_int r.id = none →
      (read_emails_process [r] "pop3" true).2 = []) := by
  refine ⟨?_, ?_, ?_⟩
  · intro records
    unfold read_emails_process
    rw [read_emails_process_aux]
    simp
  · intro s
    unfold python_int
    have hd : ("msg-" ++ s).data = 'm' :: 's' :: 'g' :: '-' :: s.data := by
      rw [String.data_append]
      rfl
    rw [hd]
    simp [python_int_chars, decodeDigits, decodeDigitsAux]
  · intro r h
    unfold read_emails_process
    rw [read_emails_process_aux]
    simp [h]

/-- Witness for C10: a record carrying the synthesized UID `"msg-1"` causes
no delete to be issued. -/
theorem C10_pop3_delete_uses_uid_witness :
    python_int "msg-1" = none ∧
    (read_emails_process [{ sampleRecord with id := "msg-1" }] "pop3"
      true).2 = [] := by
  exact ⟨by decide, C10_pop3_delete_uses_uid.2.2
    { sampleRecord with id := "msg-1" } (by decide)⟩
